import Mathlib

/-!
Verification of the Wanchai arbitrage engine (src/wanchai_project) against its
natural-language specification.  Prices, sizes and capital amounts are modelled
as exact rationals; the Python functions under test are translated one-to-one
into executable Lean definitions and the spec's claims are settled against them.
-/

namespace Wanchai

/-- One price level of an order book (polymarket/orderbook.py, OrderLevel). -/
structure OrderLevel where
  price : ℚ
  size : ℚ
deriving Repr, DecidableEq

/-- Point-in-time order book snapshot (polymarket/orderbook.py, OrderBookSnapshot):
bids sorted descending, asks ascending; only the price ladder matters here. -/
structure OrderBookSnapshot where
  bids : List OrderLevel
  asks : List OrderLevel
deriving Repr, DecidableEq

/-- OrderBookSnapshot.best_bid: first bid price, 0.0 when the bid side is empty. -/
def OrderBookSnapshot.best_bid (s : OrderBookSnapshot) : ℚ :=
  match s.bids with
  | [] => 0
  | l :: _ => l.price

/-- OrderBookSnapshot.best_ask: first ask price, 1.0 when the ask side is empty. -/
def OrderBookSnapshot.best_ask (s : OrderBookSnapshot) : ℚ :=
  match s.asks with
  | [] => 1
  | l :: _ => l.price

/-- OrderBookSnapshot.mid_price = (best_bid + best_ask) / 2. -/
def OrderBookSnapshot.mid_price (s : OrderBookSnapshot) : ℚ :=
  (s.best_bid + s.best_ask) / 2

/-- OrderBookSnapshot.spread = best_ask - best_bid. -/
def OrderBookSnapshot.spread (s : OrderBookSnapshot) : ℚ :=
  s.best_ask - s.best_bid

/-- OrderBookSnapshot.spread_pct: spread / mid_price, with 0 when mid_price = 0. -/
def OrderBookSnapshot.spread_pct (s : OrderBookSnapshot) : ℚ :=
  if s.mid_price = 0 then 0 else s.spread / s.mid_price

/-- Result record of PolymarketClient.get_price (polymarket/client.py 214-237). -/
structure PriceQuote where
  bid : ℚ
  ask : ℚ
  mid : ℚ
  spread : ℚ
  spread_pct : ℚ
deriving Repr, DecidableEq

/-- PolymarketClient.get_price (client.py 214-237): best bid defaults to 0.0 on an
empty bid list, best ask to 1.0 on an empty ask list; spread_pct is guarded by
`if mid_price > 0 else 0`. -/
def client_get_price (bids asks : List OrderLevel) : PriceQuote :=
  let best_bid : ℚ := match bids with | [] => 0 | l :: _ => l.price
  let best_ask : ℚ := match asks with | [] => 1 | l :: _ => l.price
  let mid := (best_bid + best_ask) / 2
  let spread := best_ask - best_bid
  { bid := best_bid, ask := best_ask, mid := mid, spread := spread
    spread_pct := if 0 < mid then spread / mid else 0 }

/-- Type tag of a detected Yes/No parity opportunity. -/
inductive ArbType
  | buyBoth
  | sellBoth
deriving Repr, DecidableEq

/-- Opportunity dictionary produced by the two parity detectors.  Python passes a
plain dict whose keys differ by producer: PolymarketClient.check_yes_no_arbitrage
(client.py 428-483) stores the ask total under total_cost (the bid total under
total_value), while MultiOrderBook.check_arbitrage (orderbook.py 373-414) stores
both under total.  Option fields model key presence; the reader's dict.get
defaults are applied in create_arb_signal below. -/
structure ArbOpp where
  arb_type : ArbType
  yes_price : ℚ
  no_price : ℚ
  profit_pct : ℚ
  total_cost : Option ℚ
  total_value : Option ℚ
  total : Option ℚ
deriving Repr, DecidableEq

/-- MultiOrderBook.check_arbitrage (orderbook.py 373-414) on the pair's two current
snapshots: BUY_BOTH when best asks sum below 0.995, otherwise SELL_BOTH when best
bids sum above 1.005, otherwise nothing.  Its dict carries the sum only under the
total key (neither total_cost nor total_value is set). -/
def check_arbitrage (yes_snap no_snap : OrderBookSnapshot) : Option ArbOpp :=
  let buy_total := yes_snap.best_ask + no_snap.best_ask
  if buy_total < 995/1000 then
    some { arb_type := ArbType.buyBoth, yes_price := yes_snap.best_ask
           no_price := no_snap.best_ask
           profit_pct := (1 - buy_total) / buy_total
           total_cost := none, total_value := none, total := some buy_total }
  else
    let sell_total := yes_snap.best_bid + no_snap.best_bid
    if sell_total > 1005/1000 then
      some { arb_type := ArbType.sellBoth, yes_price := yes_snap.best_bid
             no_price := no_snap.best_bid
             profit_pct := sell_total - 1
             total_cost := none, total_value := none, total := some sell_total }
    else none

/-- PolymarketClient.check_yes_no_arbitrage (client.py 428-483) on the same two
books (its get_price reads the same best bid/ask with the same empty-side
defaults): identical thresholds, but its dict carries the ask total under the
total_cost key (BUY) and the bid total under total_value (SELL), with no total
key. -/
def client_check_yes_no_arbitrage (yes_snap no_snap : OrderBookSnapshot) : Option ArbOpp :=
  let total_buy := yes_snap.best_ask + no_snap.best_ask
  if total_buy < 995/1000 then
    some { arb_type := ArbType.buyBoth, yes_price := yes_snap.best_ask
           no_price := no_snap.best_ask
           profit_pct := (1 - total_buy) / total_buy
           total_cost := some total_buy, total_value := none, total := none }
  else
    let total_sell := yes_snap.best_bid + no_snap.best_bid
    if total_sell > 1005/1000 then
      some { arb_type := ArbType.sellBoth, yes_price := yes_snap.best_bid
             no_price := no_snap.best_bid
             profit_pct := (total_sell - 1) / 1
             total_cost := none, total_value := some total_sell, total := none }
    else none

/-- Fields of the TradeSignal built by YesNoArbitrageStrategy._create_arb_signal
(yes_no_arbitrage.py 121-185) that the parity claims are about. -/
structure ParitySignal where
  arb_type : ArbType
  price : ℚ
  size : ℚ
  confidence : ℚ
  expected_profit_pct : ℚ
deriving Repr, DecidableEq

/-- YesNoArbitrageStrategy._create_arb_signal (yes_no_arbitrage.py 121-185):
for BUY_BOTH it reads arb.get(total_cost, 1) — defaulting to 1 when the key is
absent, as it is on the MultiOrderBook.check_arbitrage dict — and emits price =
total_cost, size = max_position / total_cost; for SELL_BOTH it reads
arb.get(total_value, 1) and emits price = total_value, size = max_position; both
report the opportunity's profit_pct. -/
def create_arb_signal (max_position target_profit : ℚ) (arb : ArbOpp) : ParitySignal :=
  match arb.arb_type with
  | ArbType.buyBoth =>
      let total_cost := arb.total_cost.getD 1
      { arb_type := ArbType.buyBoth, price := total_cost
        size := max_position / total_cost
        confidence := min (95/100) (arb.profit_pct / target_profit)
        expected_profit_pct := arb.profit_pct }
  | ArbType.sellBoth =>
      let total_value := arb.total_value.getD 1
      { arb_type := ArbType.sellBoth, price := total_value
        size := max_position
        confidence := min (95/100) (arb.profit_pct / target_profit)
        expected_profit_pct := arb.profit_pct }

/-- YesNoArbitrageStrategy.scan on one monitored pair (yes_no_arbitrage.py
100-107): MultiOrderBook.check_arbitrage, then the min_spread filter, then
_create_arb_signal (which on this path sees no total_cost key). -/
def parity_scan_pair (min_spread target_profit max_position : ℚ)
    (yes_snap no_snap : OrderBookSnapshot) : Option ParitySignal :=
  match check_arbitrage yes_snap no_snap with
  | none => none
  | some arb =>
      if min_spread ≤ arb.profit_pct then
        some (create_arb_signal max_position target_profit arb)
      else none

/-- YesNoArbitrageStrategy.scan on the client path for one market
(yes_no_arbitrage.py 93-98): PolymarketClient.check_yes_no_arbitrage, then the
min_spread filter, then _create_arb_signal (which on this path finds the
total_cost key). -/
def parity_scan_client (min_spread target_profit max_position : ℚ)
    (yes_snap no_snap : OrderBookSnapshot) : Option ParitySignal :=
  match client_check_yes_no_arbitrage yes_snap no_snap with
  | none => none
  | some arb =>
      if min_spread ≤ arb.profit_pct then
        some (create_arb_signal max_position target_profit arb)
      else none

/-- Capital-ledger counters of CompoundingStrategy (compounding.py 44-49):
current capital, running peak, and the trade / win counters. -/
structure Ledger where
  capital : ℚ
  peak : ℚ
  trade_count : ℕ
  win_count : ℕ
deriving Repr, DecidableEq

/-- CompoundingStrategy.set_initial_capital (compounding.py 54-66). -/
def Ledger.init (amount : ℚ) : Ledger :=
  { capital := amount, peak := amount, trade_count := 0, win_count := 0 }

/-- CompoundingStrategy._process_result (compounding.py 162-194): the trade counter
always increments, the win counter increments when profit_loss >= 0, the capital
moves by profit_loss in either branch, and the peak is re-taken afterwards. -/
def process_result (pnl : ℚ) (s : Ledger) : Ledger :=
  let capital := s.capital + pnl
  { capital := capital
    peak := max s.peak capital
    trade_count := s.trade_count + 1
    win_count := if 0 ≤ pnl then s.win_count + 1 else s.win_count }

/-- A sequence of trade-result / resolution outcomes applied to the ledger, each
carrying its realized profit_loss, in order. -/
def apply_results (pnls : List ℚ) (s : Ledger) : Ledger :=
  pnls.foldl (fun st p => process_result p st) s

/-- Greedy accumulation loop of RangeCoverageStrategy._find_optimal_coverage
(range_coverage.py 139-150): walk the (descending-sorted) outcome prices, skip
non-positive prices, add an outcome while the running total stays within
max_total_cost, and break at the first outcome whose addition would exceed it.
Returns the chosen prices and the final running total. -/
def coverage_loop (max_total_cost : ℚ) : List ℚ → ℚ → List ℚ × ℚ
  | [], total => ([], total)
  | p :: rest, total =>
      if p ≤ 0 then coverage_loop max_total_cost rest total
      else if total + p ≤ max_total_cost then
        let r := coverage_loop max_total_cost rest (total + p)
        (p :: r.1, r.2)
      else ([], total)

/-- RangeCoverageStrategy._find_optimal_coverage (range_coverage.py 126-158):
None when the greedy loop chose nothing. -/
def find_optimal_coverage (max_total_cost : ℚ) (prices : List ℚ) : Option (List ℚ × ℚ) :=
  let r := coverage_loop max_total_cost prices 0
  if r.1 = [] then none else some r

/-- Fields of the CoverSet TradeSignal built by RangeCoverageStrategy.scan
(range_coverage.py 102-118). -/
structure CoverSignal where
  price : ℚ
  size : ℚ
  expected_profit_pct : ℚ
  num_outcomes : ℕ
deriving Repr, DecidableEq

/-- RangeCoverageStrategy.scan decision for one market (range_coverage.py 92-119),
taking the market's outcome ask prices already sorted descending (scan sorts them
on line 93): emit iff the coverage has at least min_outcomes outcomes and
(1 - total) / total reaches target_profit. -/
def range_coverage_detect (max_total_cost target_profit : ℚ) (min_outcomes : ℕ)
    (max_position : ℚ) (sorted_prices : List ℚ) : Option CoverSignal :=
  match find_optimal_coverage max_total_cost sorted_prices with
  | none => none
  | some (chosen, total) =>
      if min_outcomes ≤ chosen.length then
        let profit_pct := (1 - total) / total
        if target_profit ≤ profit_pct then
          some { price := total, size := max_position / total
                 expected_profit_pct := profit_pct, num_outcomes := chosen.length }
        else none
      else none

/-- One entry of PriceAggregator._price_history (aggregator.py 162-168):
timestamp (milliseconds, as a rational) and price, appended in arrival order. -/
structure HistEntry where
  ts : ℚ
  price : ℚ
deriving Repr, DecidableEq

/-- Per-symbol momentum direction reported by an exchange's calculate_momentum
(exchanges/base.py 170-192). -/
inductive MomDir
  | up
  | down
  | neutral
deriving Repr, DecidableEq

/-- Baseline lookup of PriceAggregator._check_impulse (aggregator.py 183-192):
iterate the history in arrival order (oldest entry first) and take the first
entry whose timestamp is at most window_start; fall back to the oldest entry. -/
def impulse_old_price (window_start : ℚ) (hist : List HistEntry) : ℚ :=
  match hist with
  | [] => 0
  | e0 :: _ =>
      match hist.find? (fun e => decide (e.ts ≤ window_start)) with
      | some e => e.price
      | none => e0.price

/-- Baseline lookup as the specification words it: walk the history backwards
(newest entry first) and take the first entry whose timestamp is at most
window_start; fall back to the oldest entry. -/
def impulse_old_price_spec (window_start : ℚ) (hist : List HistEntry) : ℚ :=
  match hist with
  | [] => 0
  | e0 :: _ =>
      match hist.reverse.find? (fun e => decide (e.ts ≤ window_start)) with
      | some e => e.price
      | none => e0.price

/-- PriceImpulse fields relevant here (aggregator.py 64-75). -/
structure Impulse where
  direction_up : Bool
  change_pct : ℚ
  from_price : ℚ
  to_price : ℚ
  confidence : ℚ
deriving Repr, DecidableEq

/-- PriceAggregator._check_impulse_confirmation (aggregator.py 225-235): count the
exchanges whose momentum direction matches the impulse direction. -/
def impulse_confirmation (dir_up : Bool) (dirs : List MomDir) : ℕ :=
  dirs.countP (fun d => decide (d = (if dir_up then MomDir.up else MomDir.down)))

/-- PriceAggregator._check_impulse (aggregator.py 176-223): the history already holds
the inbound update as its last entry (appended by _on_price_update line 164); no
impulse when there are fewer than two entries; otherwise compute change_pct from
the baseline and emit iff its magnitude reaches the threshold, with confidence
confirmed / number-of-exchanges (1 when no exchange is tracked). -/
def check_impulse (threshold window_ms : ℚ) (dirs : List MomDir)
    (hist_before : List HistEntry) (update : HistEntry) : Option Impulse :=
  let hist := hist_before ++ [update]
  if hist.length < 2 then none
  else
    let window_start := update.ts - window_ms
    let p_then := impulse_old_price window_start hist
    let change := (update.price - p_then) / p_then
    if threshold ≤ |change| then
      let up := decide (0 < change)
      some { direction_up := up, change_pct := change, from_price := p_then
             to_price := update.price
             confidence :=
               if dirs = [] then 1
               else (impulse_confirmation up dirs : ℚ) / (dirs.length : ℚ) }
    else none

/-- NearResolvedSnipingStrategy._calculate_snipe_size (near_resolved.py 129-148):
cap at 20 percent of capital, scale by (probability - 0.90) / 0.10, and floor the
result at 10 dollars. -/
def calculate_snipe_size (available_capital probability : ℚ) : ℚ :=
  if available_capital ≤ 0 then 0
  else
    let max_per_market := available_capital * (20/100)
    let confidence_factor := (probability - 90/100) / (10/100)
    let position := max_per_market * confidence_factor
    max 10 (min position max_per_market)

/-- Sizing rule as the specification words it:
capital * clamp((prob - 0.90) / 0.10, 0, 1) * 0.20. -/
def claimed_snipe_size (capital prob : ℚ) : ℚ :=
  capital * max 0 (min ((prob - 90/100) / (10/100)) 1) * (20/100)

/-- NearResolvedSnipingStrategy.scan line 109: the signal's share size is the dollar
position divided by the outcome's probability (its price). -/
def snipe_share_size (capital prob : ℚ) : ℚ :=
  calculate_snipe_size capital prob / prob

/-- SpreadTradingStrategy._get_inventory_imbalance (spread_trading.py 219-230):
position size divided by (order_size * 10), with no clamping (0 for a flat book). -/
def get_inventory_imbalance (order_size position_size : ℚ) : ℚ :=
  if position_size = 0 then 0 else position_size / (order_size * 10)

/-- Quote-size rebalance of SpreadTradingStrategy.execute (spread_trading.py 143-158):
when the imbalance exceeds max_inventory_imbalance, shade the bid size by
(1 - imbalance) and the ask size by (1 + imbalance), and symmetrically for short
inventory. Returns (bid_size, ask_size). -/
def rebalanced_sizes (max_imbalance order_size position_size signal_size : ℚ) : ℚ × ℚ :=
  let imb := get_inventory_imbalance order_size position_size
  if max_imbalance < imb then (signal_size * (1 - imb), signal_size * (1 + imb))
  else if imb < -max_imbalance then (signal_size * (1 + |imb|), signal_size * (1 - |imb|))
  else (signal_size, signal_size)

/-- Order status of PolymarketClient.place_order responses (client.py 19-27). -/
inductive OrderStatus
  | simulated
  | filled
  | partialFill
  | openOrder
  | rejected
deriving Repr, DecidableEq

/-- Fields of OrderResponse (client.py 19-27) relevant to ledger updates. -/
structure OrderResponse where
  status : OrderStatus
  filled_amount : ℚ
  avg_price : ℚ
deriving Repr, DecidableEq

/-- PolymarketClient.place_order (client.py 258-310): in dry-run mode it synthesizes
a fill of the full requested size at the limit price with status simulated; in
live mode the venue's response (a function of the submitted price and size)
determines status, filled size and average price. -/
def place_order (dry_run : Bool) (venue : ℚ → ℚ → OrderResponse)
    (price size : ℚ) : OrderResponse :=
  if dry_run then { status := OrderStatus.simulated, filled_amount := size, avg_price := price }
  else venue price size

/-- PolymarketClient.get_positions (client.py 366-397): dry-run mode returns the
empty list without consulting the venue. -/
def get_positions (dry_run : Bool) (venue_positions : List ℚ) : List ℚ :=
  if dry_run then [] else venue_positions

/-- Capital update of NearResolvedSnipingStrategy.execute (near_resolved.py 150-241):
clamp the requested size so its cost fits the available capital, place the order,
and on an accepted status (simulated / filled / partial) subtract
filled_amount * avg_price from the available capital. -/
def snipe_exec_step (dry_run : Bool) (venue : ℚ → ℚ → OrderResponse)
    (capital price size : ℚ) : ℚ :=
  let size2 := if capital < size * price then capital / price else size
  let order := place_order dry_run venue price size2
  if order.status = OrderStatus.simulated ∨ order.status = OrderStatus.filled ∨
     order.status = OrderStatus.partialFill then
    capital - order.filled_amount * order.avg_price
  else capital

/-- Available-capital trajectory over a stream of (price, size) buy signals,
recording the capital before and after every execution step. -/
def snipe_trajectory (dry_run : Bool) (venue : ℚ → ℚ → OrderResponse)
    (capital : ℚ) : List (ℚ × ℚ) → List ℚ
  | [] => [capital]
  | (price, size) :: rest =>
      capital :: snipe_trajectory dry_run venue
        (snipe_exec_step dry_run venue capital price size) rest

/-- WanchaiBot._check_risk_limits (bot.py 322-331): true (keep running) unless the
cumulative profit has dropped below -max_daily_loss. -/
def check_risk_limits (max_daily_loss total_profit : ℚ) : Bool :=
  !(decide (total_profit < -max_daily_loss))

/-- Main loop of WanchaiBot.run (bot.py 292-313) over the stream of per-iteration
profits: each iteration runs run_once (adding its profit to the running total) and
then checks the risk limits, breaking out of the loop when they are breached.
Returns (number of iterations executed, final cumulative profit). -/
def run_loop (max_daily_loss : ℚ) : List ℚ → ℚ → ℕ × ℚ
  | [], profit => (0, profit)
  | p :: rest, profit =>
      let profit2 := profit + p
      if check_risk_limits max_daily_loss profit2 then
        let r := run_loop max_daily_loss rest profit2
        (r.1 + 1, r.2)
      else (1, profit2)

/-- Process exit status of bot.py: main() (bot.py 386-432) returns None on every
non-exception path — the risk-limit branch merely breaks the loop, runs shutdown
and returns the session summary — and no sys.exit call exists anywhere in the
project, so the interpreter exits with status 0 whether or not the risk halt
fired. -/
def main_exit_code (_risk_halted : Bool) : ℕ := 0

/-- Price field of the PriceUpdate built by BinanceConnector.get_price from a REST
book-ticker query (binance.py 121), exactly as the source computes it:
bidPrice + askPrice / 2. -/
def binance_rest_price_field (bidPrice askPrice : ℚ) : ℚ :=
  bidPrice + askPrice / 2

/-- Price field of the PriceUpdate built by BinanceConnector._handle_book_ticker
from a streaming book-ticker message (binance.py 257): (b + a) / 2. -/
def binance_book_ticker_price_field (b a : ℚ) : ℚ :=
  (b + a) / 2

/-- PriceUpdate.mid_price (exchanges/base.py 37-39): (bid + ask) / 2, the intended
meaning of the price field. -/
def price_update_mid (bid ask : ℚ) : ℚ :=
  (bid + ask) / 2

/-- C10: for every order-book snapshot an empty ask side defaults best_ask to 1.0
and an empty bid side defaults best_bid to 0.0; spread_pct is 0 whenever the mid
price is 0 (every derived quantity is total); and a price query on a completely
empty book returns bid 0.0, ask 1.0, mid 0.5 and spread 1.0 rather than failing
(its spread_pct being 1.0 / 0.5 = 2). -/
theorem orderbook_empty_side_defaults (s : OrderBookSnapshot) :
    (s.asks = [] → s.best_ask = 1) ∧
    (s.bids = [] → s.best_bid = 0) ∧
    (s.mid_price = 0 → s.spread_pct = 0) ∧
    client_get_price [] [] = { bid := 0, ask := 1, mid := 1/2, spread := 1, spread_pct := 2 } := by
  refine ⟨?_, ?_, ?_, ?_⟩
  · intro h
    simp [OrderBookSnapshot.best_ask, h]
  · intro h
    simp [OrderBookSnapshot.best_bid, h]
  · intro h
    simp [OrderBookSnapshot.spread_pct, h]
  · simp only [client_get_price]
    norm_num

/-- Witness for C10 at the completely empty book. -/
theorem orderbook_empty_side_defaults_witness :
    OrderBookSnapshot.best_ask { bids := [], asks := [] } = 1 ∧
    OrderBookSnapshot.best_bid { bids := [], asks := [] } = 0 :=
  ⟨(orderbook_empty_side_defaults { bids := [], asks := [] }).1 rfl,
   (orderbook_empty_side_defaults { bids := [], asks := [] }).2.1 rfl⟩

/-- C1: the claim matches the intended sizing (and the client path), but the
monitored-pair path breaks it: MultiOrderBook.check_arbitrage publishes the ask
total under the total key while _create_arb_signal reads arb.get(total_cost, 1),
so on that path the default 1 is used.  At the S1 books (asks 0.48 and 0.49,
total 0.97) the monitored-pair path emits price 1 and size max_position = 10000,
not the claimed size max_position / 0.97; the client path, whose dict carries
total_cost, emits exactly the claimed price 0.97 and size 10000 / 0.97;
expected_profit_pct is (1 - 0.97) / 0.97 = 3/97 on both. -/
theorem parity_total_cost_key_bug :
    parity_scan_pair (5/1000) (3/100) 10000
        { bids := [], asks := [{ price := 48/100, size := 1000 }] }
        { bids := [], asks := [{ price := 49/100, size := 1000 }] } =
      some { arb_type := ArbType.buyBoth, price := 1, size := 10000
             confidence := min (95/100) ((3/97) / (3/100))
             expected_profit_pct := 3/97 } ∧
    parity_scan_client (5/1000) (3/100) 10000
        { bids := [], asks := [{ price := 48/100, size := 1000 }] }
        { bids := [], asks := [{ price := 49/100, size := 1000 }] } =
      some { arb_type := ArbType.buyBoth, price := 97/100, size := 10000 / (97/100)
             confidence := min (95/100) ((3/97) / (3/100))
             expected_profit_pct := 3/97 } ∧
    (10000 : ℚ) ≠ 10000 / (97/100) := by
  refine ⟨?_, ?_, ?_⟩
  · simp only [parity_scan_pair, check_arbitrage, create_arb_signal,
      OrderBookSnapshot.best_ask, OrderBookSnapshot.best_bid, Option.getD_none]
    norm_num
  · simp only [parity_scan_client, client_check_yes_no_arbitrage, create_arb_signal,
      OrderBookSnapshot.best_ask, OrderBookSnapshot.best_bid, Option.getD_some]
    norm_num
  · norm_num

/-- The two ledger invariants that every _process_result call preserves:
the win counter never exceeds the trade counter and the peak never falls below
the current capital. -/
def LedgerInv (s : Ledger) : Prop :=
  s.win_count ≤ s.trade_count ∧ s.capital ≤ s.peak

/-- A single _process_result call preserves both ledger invariants. -/
lemma process_result_inv (pnl : ℚ) (s : Ledger) (h : LedgerInv s) :
    LedgerInv (process_result pnl s) := by
  obtain ⟨h1, _⟩ := h
  constructor
  · simp only [process_result]
    split
    · exact Nat.succ_le_succ h1
    · exact Nat.le_succ_of_le h1
  · simp only [process_result]
    exact le_max_right _ _

/-- Folding any result sequence over the ledger preserves both invariants. -/
lemma apply_results_inv (pnls : List ℚ) (s : Ledger) (h : LedgerInv s) :
    LedgerInv (apply_results pnls s) := by
  induction pnls generalizing s with
  | nil => exact h
  | cons p rest ih =>
      simp only [apply_results, List.foldl_cons] at *
      exact ih _ (process_result_inv p s h)

/-- Counterexample for C2: from initial capital 100, a single trade result with a
loss of 200 (which CompoundingStrategy._process_result accepts unchecked) drives
the available capital to -100, violating the claimed available_capital >= 0. -/
theorem ledger_available_nonneg_cex :
    (apply_results [-200] (Ledger.init 100)).capital = -100 ∧
    ¬ 0 ≤ (apply_results [-200] (Ledger.init 100)).capital := by
  have h : (apply_results [-200] (Ledger.init 100)).capital = -100 := by
    simp [apply_results, process_result, Ledger.init]
    norm_num
  exact ⟨h, by rw [h]; norm_num⟩

/-- C2 (amended): for every ledger state reachable from a positive initial capital
by any sequence of trade-result / resolution outcomes, win_count <= trade_count
and peak_capital >= current capital; the claimed available_capital >= 0 is not
enforced by the code and is dropped (see the counterexample). -/
theorem ledger_invariants_amended (init : ℚ) (pnls : List ℚ) (_hinit : 0 < init) :
    (apply_results pnls (Ledger.init init)).win_count ≤
      (apply_results pnls (Ledger.init init)).trade_count ∧
    (apply_results pnls (Ledger.init init)).capital ≤
      (apply_results pnls (Ledger.init init)).peak :=
  apply_results_inv pnls (Ledger.init init) ⟨Nat.le_refl 0, le_refl init⟩

/-- Witness for C2 (amended) on the sequence of a 5-dollar loss then a 3-dollar win. -/
theorem ledger_invariants_amended_witness :
    (apply_results [-5, 3] (Ledger.init 100)).win_count ≤
      (apply_results [-5, 3] (Ledger.init 100)).trade_count ∧
    (apply_results [-5, 3] (Ledger.init 100)).capital ≤
      (apply_results [-5, 3] (Ledger.init 100)).peak :=
  ledger_invariants_amended 100 [-5, 3] (by norm_num)

/-- Structural description of the greedy coverage walk: on positive prices it
chooses a prefix of the price list, its final total is the initial total plus the
sum of the chosen prices, that total respects max_total_cost whenever anything
was chosen, and the walk stopped exactly at the first price whose addition would
exceed max_total_cost. -/
lemma coverage_loop_spec (max_total_cost : ℚ) (prices : List ℚ) (total : ℚ)
    (hpos : ∀ p ∈ prices, 0 < p) :
    (coverage_loop max_total_cost prices total).1 =
      prices.take (coverage_loop max_total_cost prices total).1.length ∧
    (coverage_loop max_total_cost prices total).2 =
      total + ((coverage_loop max_total_cost prices total).1).sum ∧
    ((coverage_loop max_total_cost prices total).1 ≠ [] →
      (coverage_loop max_total_cost prices total).2 ≤ max_total_cost) ∧
    (∀ p tail, prices.drop (coverage_loop max_total_cost prices total).1.length = p :: tail →
      max_total_cost < (coverage_loop max_total_cost prices total).2 + p) := by
  induction prices generalizing total with
  | nil =>
      refine ⟨rfl, by simp [coverage_loop], fun h => absurd rfl h, ?_⟩
      intro p tail h
      simp [coverage_loop] at h
  | cons q rest ih =>
      have hq : 0 < q := hpos q (List.mem_cons_self q rest)
      have hrest : ∀ p ∈ rest, 0 < p := fun p hp => hpos p (List.mem_cons_of_mem q hp)
      by_cases hfit : total + q ≤ max_total_cost
      · have hloop : coverage_loop max_total_cost (q :: rest) total =
            (q :: (coverage_loop max_total_cost rest (total + q)).1,
             (coverage_loop max_total_cost rest (total + q)).2) := by
          simp only [coverage_loop]
          rw [if_neg (not_le.mpr hq), if_pos hfit]
        obtain ⟨ih1, ih2, ih3, ih4⟩ := ih (total + q) hrest
        rw [hloop]
        refine ⟨?_, ?_, ?_, ?_⟩
        · simp only [List.length_cons, List.take_succ_cons]
          rw [← ih1]
        · simp only [List.sum_cons]
          rw [ih2]
          ring
        · intro _
          rcases eq_or_ne (coverage_loop max_total_cost rest (total + q)).1 [] with hnil | hnil
          · rw [ih2, hnil]
            simpa using hfit
          · exact ih3 hnil
        · intro p tail h
          simp only [List.length_cons, List.drop_succ_cons] at h
          exact ih4 p tail h
      · have hloop : coverage_loop max_total_cost (q :: rest) total = ([], total) := by
          simp only [coverage_loop]
          rw [if_neg (not_le.mpr hq), if_neg hfit]
        rw [hloop]
        refine ⟨rfl, by simp, fun h => absurd rfl h, ?_⟩
        intro p tail h
        simp only [List.length_nil, List.drop_zero] at h
        obtain ⟨rfl, -⟩ : q = p ∧ rest = tail := by
          exact ⟨(List.cons.injEq q rest p tail ▸ h).1, (List.cons.injEq q rest p tail ▸ h).2⟩
        exact not_le.mp hfit

/-- Counterexample for C3: on the spec's own example (prices 0.40, 0.30, 0.15,
0.10, 0.05 with max_total_cost 0.98 and min_outcomes 3) the detector emits no
signal at all, because the default target_profit 0.25 exceeds the coverage's
profit percentage (1 - 0.95) / 0.95 = 1/19. -/
theorem range_coverage_emission_cex :
    range_coverage_detect (98/100) (25/100) 3 5000 [2/5, 3/10, 3/20, 1/10, 1/20] = none := by
  simp only [range_coverage_detect, find_optimal_coverage, coverage_loop]
  norm_num
  rw [if_neg (List.cons_ne_nil _ _)]
  norm_num

/-- C3 (amended): the greedy selection on [0.40, 0.30, 0.15, 0.10, 0.05] with
max_total_cost 0.98 picks exactly the first four outcomes with total cost 0.95;
a CoverSet signal with expected_profit_pct = (1 - 0.95) / 0.95 is emitted only
when target_profit is at most 1/19 (so not under the default 0.25); and in
general, on positive prices, the greedy walk chooses a prefix of the
descending-sorted price list whose total respects max_total_cost and stops at
the first outcome whose addition would exceed it. -/
theorem range_coverage_greedy_amended :
    (find_optimal_coverage (98/100) [2/5, 3/10, 3/20, 1/10, 1/20] =
      some ([2/5, 3/10, 3/20, 1/10], 19/20)) ∧
    (∀ target_profit max_position : ℚ, target_profit ≤ 1/19 →
      range_coverage_detect (98/100) target_profit 3 max_position
          [2/5, 3/10, 3/20, 1/10, 1/20] =
        some { price := 19/20, size := max_position / (19/20)
               expected_profit_pct := 1/19, num_outcomes := 4 }) ∧
    (∀ (max_total_cost : ℚ) (prices : List ℚ), (∀ p ∈ prices, 0 < p) →
      (coverage_loop max_total_cost prices 0).1 =
        prices.take (coverage_loop max_total_cost prices 0).1.length ∧
      (coverage_loop max_total_cost prices 0).2 =
        ((coverage_loop max_total_cost prices 0).1).sum ∧
      ((coverage_loop max_total_cost prices 0).1 ≠ [] →
        (coverage_loop max_total_cost prices 0).2 ≤ max_total_cost) ∧
      (∀ p tail, prices.drop (coverage_loop max_total_cost prices 0).1.length = p :: tail →
        max_total_cost < (coverage_loop max_total_cost prices 0).2 + p)) := by
  refine ⟨?_, ?_, ?_⟩
  · simp only [find_optimal_coverage, coverage_loop]
    norm_num
    intro h
    exact absurd h (by simp)
  · intro target_profit max_position htarget
    have h119 : ((1 : ℚ) - 19/20) / (19/20) = 1/19 := by norm_num
    simp only [range_coverage_detect, find_optimal_coverage, coverage_loop]
    norm_num
    rw [if_neg (List.cons_ne_nil _ _)]
    simp only [List.length_cons, List.length_nil]
    rw [if_pos (by norm_num), h119, if_pos htarget]
  · intro max_total_cost prices hpos
    obtain ⟨h1, h2, h3, h4⟩ := coverage_loop_spec max_total_cost prices 0 hpos
    rw [zero_add] at h2
    exact ⟨h1, h2, h3, h4⟩

/-- Witness for C3 (amended): with target_profit lowered to 1/19 the CoverSet
signal on the example market is emitted with profit percentage 1/19. -/
theorem range_coverage_greedy_amended_witness :
    range_coverage_detect (98/100) (1/19) 3 5000 [2/5, 3/10, 3/20, 1/10, 1/20] =
      some { price := 19/20, size := 5000 / (19/20)
             expected_profit_pct := 1/19, num_outcomes := 4 } :=
  range_coverage_greedy_amended.2.1 (1/19) 5000 le_rfl

/-- On a chronologically ordered history the code's forward walk always lands on
the oldest entry: either the head already satisfies ts <= window_start (and the
forward walk returns the first hit), or no entry does and the fallback is again
the head. -/
lemma impulse_old_price_sorted (window_start : ℚ) (e0 : HistEntry) (tail : List HistEntry)
    (hsorted : (e0 :: tail).Pairwise (fun a b => a.ts ≤ b.ts)) :
    impulse_old_price window_start (e0 :: tail) = e0.price := by
  unfold impulse_old_price
  by_cases h : e0.ts ≤ window_start
  · rw [List.find?_cons_of_pos _ (by simpa using h)]
  · have hall : ∀ e ∈ e0 :: tail, ¬ (decide (e.ts ≤ window_start) = true) := by
      intro e he
      simp only [decide_eq_true_eq]
      rcases List.mem_cons.mp he with rfl | htail
      · exact h
      · intro hle
        exact h (le_trans ((List.pairwise_cons.mp hsorted).1 e htail) hle)
    rw [List.find?_eq_none.mpr hall]

/-- Counterexample for C4: history with timestamps 0, 20, 100 (prices 100, 110,
120) and window_ms 50, so window_start = 50.  The code's baseline (forward walk)
is the entry at timestamp 0 with price 100, while the claimed backward walk
yields the entry at timestamp 20 with price 110; with threshold 10 percent the
code emits an impulse (change 20 percent from 100) although the claimed change
|(120 - 110)/110| = 1/11 is below the threshold. -/
theorem impulse_baseline_cex :
    impulse_old_price 50 [{ ts := 0, price := 100 }, { ts := 20, price := 110 },
      { ts := 100, price := 120 }] = 100 ∧
    impulse_old_price_spec 50 [{ ts := 0, price := 100 }, { ts := 20, price := 110 },
      { ts := 100, price := 120 }] = 110 ∧
    impulse_old_price 50 [{ ts := 0, price := 100 }, { ts := 20, price := 110 },
        { ts := 100, price := 120 }] ≠
      impulse_old_price_spec 50 [{ ts := 0, price := 100 }, { ts := 20, price := 110 },
        { ts := 100, price := 120 }] ∧
    (check_impulse (1/10) 50 [] [{ ts := 0, price := 100 }, { ts := 20, price := 110 }]
      { ts := 100, price := 120 }).isSome = true ∧
    |((120 : ℚ) - 110) / 110| < 1/10 := by
  have h1 : impulse_old_price 50 [{ ts := 0, price := 100 }, { ts := 20, price := 110 },
      { ts := 100, price := 120 }] = (100 : ℚ) := by
    simp [impulse_old_price, List.find?]
  have h2 : impulse_old_price_spec 50 [{ ts := 0, price := 100 }, { ts := 20, price := 110 },
      { ts := 100, price := 120 }] = (110 : ℚ) := by
    simp only [impulse_old_price_spec, List.find?, List.reverse_cons, List.reverse_nil,
      List.nil_append, List.cons_append]
    rw [decide_eq_false (by norm_num : ¬ ((100:ℚ) ≤ 50)),
        decide_eq_true (by norm_num : ((20:ℚ) ≤ 50))]
  refine ⟨h1, h2, ?_, ?_, ?_⟩
  · rw [h1, h2]
    norm_num
  · simp [check_impulse, impulse_old_price, List.find?]
    norm_num [abs_of_pos]
  · rw [abs_of_pos] <;> norm_num

/-- C4 (amended): the baseline walk is forward (oldest entry first), not backward:
on a chronologically ordered history (timestamps non-decreasing, the inbound
update appended last) the baseline is always the oldest entry in the buffer, and
an impulse is emitted exactly when |(p_now - p_then) / p_then| reaches the
threshold, with direction given by the sign of the change and confidence equal to
the number of exchanges whose momentum direction agrees divided by the number of
exchanges tracked (1 when none are tracked). -/
theorem impulse_forward_baseline_amended (threshold window_ms : ℚ) (dirs : List MomDir)
    (e0 : HistEntry) (rest : List HistEntry) (update : HistEntry)
    (hsorted : ((e0 :: rest) ++ [update]).Pairwise (fun a b => a.ts ≤ b.ts)) :
    check_impulse threshold window_ms dirs (e0 :: rest) update =
      (if threshold ≤ |(update.price - e0.price) / e0.price| then
        some { direction_up := decide (0 < (update.price - e0.price) / e0.price)
               change_pct := (update.price - e0.price) / e0.price
               from_price := e0.price, to_price := update.price
               confidence :=
                 if dirs = [] then 1
                 else (impulse_confirmation
                     (decide (0 < (update.price - e0.price) / e0.price)) dirs : ℚ) /
                   (dirs.length : ℚ) }
      else none) := by
  have hbase : impulse_old_price (update.ts - window_ms) ((e0 :: rest) ++ [update]) =
      e0.price := by
    rw [List.cons_append]
    exact impulse_old_price_sorted (update.ts - window_ms) e0 (rest ++ [update])
      (by simpa using hsorted)
  have hlen : ¬ (((e0 :: rest) ++ [update]).length < 2) := by
    simp only [List.length_append, List.length_cons, List.length_singleton]
    omega
  simp only [check_impulse, hbase]
  rw [if_neg hlen]

/-- Witness for C4 (amended) on the sorted history 0, 20, 100 with threshold 10
percent and no tracked exchanges: the impulse is emitted from the oldest price
100 with change 20 percent and confidence 1. -/
theorem impulse_forward_baseline_amended_witness :
    check_impulse (1/10) 50 [] [{ ts := 0, price := 100 }, { ts := 20, price := 110 }]
        { ts := 100, price := 120 } =
      some { direction_up := true, change_pct := 1/5, from_price := 100, to_price := 120
             confidence := 1 } := by
  have h := impulse_forward_baseline_amended (1/10) 50 [] { ts := 0, price := 100 }
    [{ ts := 20, price := 110 }] { ts := 100, price := 120 }
    (by norm_num [List.pairwise_cons])
  rw [h]
  have hch : (({ ts := 100, price := 120 } : HistEntry).price -
      ({ ts := 0, price := 100 } : HistEntry).price) /
      ({ ts := 0, price := 100 } : HistEntry).price = (1/5 : ℚ) := by norm_num
  rw [hch]
  rw [if_pos (by rw [abs_of_pos] <;> norm_num)]
  rw [decide_eq_true (by norm_num : (0:ℚ) < 1/5)]
  simp

/-- Counterexample for C5: with available capital 50 dollars and probability 0.95
the claimed formula gives 50 * 0.5 * 0.2 = 5 dollars, but the code's 10-dollar
floor (max(10, ...)) returns 10 dollars. -/
theorem snipe_size_floor_cex :
    calculate_snipe_size 50 (19/20) = 10 ∧
    claimed_snipe_size 50 (19/20) = 5 ∧
    calculate_snipe_size 50 (19/20) ≠ claimed_snipe_size 50 (19/20) := by
  have h1 : calculate_snipe_size 50 (19/20) = 10 := by
    simp only [calculate_snipe_size]
    norm_num
  have h2 : claimed_snipe_size 50 (19/20) = 5 := by
    simp only [claimed_snipe_size]
    norm_num
  refine ⟨h1, h2, ?_⟩
  rw [h1, h2]
  norm_num

/-- C5 (amended): the dollar position is max(10, min(capital * 0.2 * ((prob - 0.90)
/ 0.10), capital * 0.2)) for positive capital, which agrees with the claimed
capital * clamp((prob - 0.90) / 0.10, 0, 1) * 0.20 whenever that claimed value is
at least the 10-dollar floor (and prob <= 1); in particular with capital 1000 and
an outcome at 0.97 the dollar size is exactly 140 and the signal's share size is
140 / 0.97 = 14000/97 (about 144.33 shares). -/
theorem snipe_size_amended (capital prob : ℚ) (hcap : 0 < capital) (hprob : prob ≤ 1)
    (hfloor : 10 ≤ capital * (20/100) * ((prob - 90/100) / (10/100))) :
    calculate_snipe_size capital prob = claimed_snipe_size capital prob ∧
    calculate_snipe_size 1000 (97/100) = 140 ∧
    snipe_share_size 1000 (97/100) = 14000/97 := by
  refine ⟨?_, ?_, ?_⟩
  · have hcf_pos : 0 < (prob - 90/100) / (10/100) := by
      by_contra hneg
      push_neg at hneg
      nlinarith
    have hcf_le : (prob - 90/100) / (10/100) ≤ 1 := by
      rw [div_le_one (by norm_num)]
      linarith
    unfold calculate_snipe_size claimed_snipe_size
    rw [if_neg (not_le.mpr hcap)]
    have hmin : min (capital * (20/100) * ((prob - 90/100) / (10/100))) (capital * (20/100)) =
        capital * (20/100) * ((prob - 90/100) / (10/100)) :=
      min_eq_left (by nlinarith)
    have hclamp : max 0 (min ((prob - 90/100) / (10/100)) 1) = (prob - 90/100) / (10/100) := by
      rw [min_eq_left hcf_le, max_eq_right hcf_pos.le]
    simp only [hmin, hclamp]
    rw [max_eq_right hfloor]
    ring
  · simp only [calculate_snipe_size]
    norm_num
  · simp only [snipe_share_size, calculate_snipe_size]
    norm_num

/-- Witness for C5 (amended) at the spec's S2 scenario: capital 1000, price 0.97. -/
theorem snipe_size_amended_witness :
    calculate_snipe_size 1000 (97/100) = claimed_snipe_size 1000 (97/100) :=
  (snipe_size_amended 1000 (97/100) (by norm_num) (by norm_num) (by norm_num)).1

/-- C6: with the default order_size 100 an inventory of 2000 shares yields
imbalance 2000 / (100 * 10) = 2, outside the claimed [-1, 1] range (and outside
the range promised by the function's own docstring), and the subsequent requote
shades the bid size to 100 * (1 - 2) = -100, a negative order size. -/
theorem inventory_imbalance_unclamped_bug :
    get_inventory_imbalance 100 2000 = 2 ∧
    ¬ (-1 ≤ get_inventory_imbalance 100 2000 ∧ get_inventory_imbalance 100 2000 ≤ 1) ∧
    (rebalanced_sizes (3/10) 100 2000 100).1 = -100 ∧
    (rebalanced_sizes (3/10) 100 2000 100).1 < 0 := by
  have h1 : get_inventory_imbalance 100 2000 = 2 := by
    simp only [get_inventory_imbalance]
    norm_num
  have h2 : (rebalanced_sizes (3/10) 100 2000 100).1 = -100 := by
    simp only [rebalanced_sizes, get_inventory_imbalance]
    norm_num
  refine ⟨h1, ?_, h2, ?_⟩
  · rw [h1]
    norm_num
  · rw [h2]
    norm_num

/-- Counterexample for C7: with capital 100 and one buy signal at price 0.5 for 10
shares, a live venue that leaves the GTC order resting unfilled produces the
trajectory [100, 100], while dry-run synthesizes a full fill and produces
[100, 95]: the two ledgers diverge on identical inputs. -/
theorem dry_run_trajectory_cex :
    snipe_trajectory true (fun _ _ => (⟨OrderStatus.openOrder, 0, 0⟩ : OrderResponse)) 100 [(1/2, 10)] = [100, 95] ∧
    snipe_trajectory false (fun _ _ => (⟨OrderStatus.openOrder, 0, 0⟩ : OrderResponse)) 100 [(1/2, 10)] = [100, 100] ∧
    snipe_trajectory true (fun _ _ => (⟨OrderStatus.openOrder, 0, 0⟩ : OrderResponse)) 100 [(1/2, 10)] ≠
      snipe_trajectory false (fun _ _ => (⟨OrderStatus.openOrder, 0, 0⟩ : OrderResponse)) 100 [(1/2, 10)] := by
  have h1 : snipe_trajectory true (fun _ _ => (⟨OrderStatus.openOrder, 0, 0⟩ : OrderResponse)) 100 [(1/2, 10)] = [100, 95] := by
    simp [snipe_trajectory, snipe_exec_step, place_order]
    norm_num
  have h2 : snipe_trajectory false (fun _ _ => (⟨OrderStatus.openOrder, 0, 0⟩ : OrderResponse)) 100 [(1/2, 10)] = [100, 100] := by
    simp [snipe_trajectory, snipe_exec_step, place_order]
  refine ⟨h1, h2, ?_⟩
  rw [h1, h2]
  simp only [ne_eq, List.cons.injEq]
  norm_num

/-- A single execution step agrees between dry-run and live mode exactly when the
live venue fills the whole submitted size at the submitted price. -/
lemma snipe_exec_step_dry_eq_live (venue : ℚ → ℚ → OrderResponse)
    (hfull : ∀ p s, venue p s = ⟨OrderStatus.filled, s, p⟩)
    (capital price size : ℚ) :
    snipe_exec_step true venue capital price size =
      snipe_exec_step false venue capital price size := by
  simp [snipe_exec_step, place_order, hfull]

/-- C7 (amended): dry-run synthesizes a full fill of the signal size at the target
price, so the dry-run ledger trajectory coincides with the live one exactly when
every live order is fully filled at its target price; it is not identical in
general (see the counterexample), and dry-run get_positions always returns the
empty list, so position-dependent paths (such as SELL_BOTH) can diverge even
under full fills. -/
theorem dry_run_equivalence_amended (venue : ℚ → ℚ → OrderResponse)
    (hfull : ∀ p s, venue p s = ⟨OrderStatus.filled, s, p⟩) :
    (∀ (capital : ℚ) (signals : List (ℚ × ℚ)),
      snipe_trajectory true venue capital signals =
        snipe_trajectory false venue capital signals) ∧
    (∀ venue_positions : List ℚ, get_positions true venue_positions = []) := by
  constructor
  · intro capital signals
    induction signals generalizing capital with
    | nil => rfl
    | cons sig rest ih =>
        obtain ⟨price, size⟩ := sig
        simp only [snipe_trajectory]
        rw [snipe_exec_step_dry_eq_live venue hfull, ih]
  · intro venue_positions
    rfl

/-- Witness for C7 (amended): under a fully-filling venue the dry-run and live
trajectories coincide on a concrete stream. -/
theorem dry_run_equivalence_amended_witness :
    snipe_trajectory true (fun p s => (⟨OrderStatus.filled, s, p⟩ : OrderResponse)) 100 [(1/2, 10)] =
      snipe_trajectory false (fun p s => (⟨OrderStatus.filled, s, p⟩ : OrderResponse)) 100 [(1/2, 10)] :=
  (dry_run_equivalence_amended _ (fun _ _ => rfl)).1 100 [(1/2, 10)]

/-- Structural description of the run loop: it never runs more iterations than the
stream holds, the final cumulative profit is the sum of the processed prefix, an
early stop only happens on a risk breach, and every strictly earlier processed
prefix had passed the risk check. -/
lemma run_loop_spec (max_daily_loss : ℚ) (ps : List ℚ) : ∀ profit : ℚ,
    (run_loop max_daily_loss ps profit).1 ≤ ps.length ∧
    (run_loop max_daily_loss ps profit).2 =
      profit + (ps.take (run_loop max_daily_loss ps profit).1).sum ∧
    ((run_loop max_daily_loss ps profit).1 < ps.length →
      (run_loop max_daily_loss ps profit).2 < -max_daily_loss) ∧
    (∀ k, 1 ≤ k → k < (run_loop max_daily_loss ps profit).1 →
      ¬ (profit + (ps.take k).sum < -max_daily_loss)) := by
  induction ps with
  | nil =>
      intro profit
      refine ⟨Nat.le_refl 0, by simp [run_loop], by simp [run_loop], ?_⟩
      intro k hk1 hk2
      simp [run_loop] at hk2
  | cons p rest ih =>
      intro profit
      by_cases hok : check_risk_limits max_daily_loss (profit + p) = true
      · have hloop : run_loop max_daily_loss (p :: rest) profit =
            ((run_loop max_daily_loss rest (profit + p)).1 + 1,
             (run_loop max_daily_loss rest (profit + p)).2) := by
          simp only [run_loop]
          rw [if_pos hok]
        obtain ⟨ih1, ih2, ih3, ih4⟩ := ih (profit + p)
        have hpass : ¬ (profit + p < -max_daily_loss) := by
          simpa [check_risk_limits] using hok
        rw [hloop]
        refine ⟨?_, ?_, ?_, ?_⟩
        · simp only [List.length_cons]
          omega
        · simp only [List.take_succ_cons, List.sum_cons]
          rw [ih2]
          ring
        · intro h
          simp only [List.length_cons] at h
          exact ih3 (by omega)
        · intro k hk1 hk2
          obtain ⟨j, rfl⟩ : ∃ j, k = j + 1 := ⟨k - 1, by omega⟩
          simp only [List.take_succ_cons, List.sum_cons]
          rcases Nat.eq_zero_or_pos j with rfl | hj
          · simpa using hpass
          · have hjlt : j < (run_loop max_daily_loss rest (profit + p)).1 := by omega
            have := ih4 j hj hjlt
            intro hcon
            exact this (by linarith)
      · have hloop : run_loop max_daily_loss (p :: rest) profit = (1, profit + p) := by
          simp only [run_loop]
          rw [if_neg hok]
        have hbreach : profit + p < -max_daily_loss := by
          by_contra hc
          exact hok (by simpa [check_risk_limits] using hc)
        rw [hloop]
        refine ⟨by simp, by simp, fun _ => hbreach, ?_⟩
        intro k hk1 hk2
        omega

/-- Counterexample for C8: with max_daily_loss 500 and an iteration stream whose
first iteration loses 501 dollars, the loop halts after that iteration (the
second iteration is never run), but the process exit status is 0, not the
claimed 2: bot.py has no exit-code machinery at all. -/
theorem risk_halt_exit_code_cex :
    run_loop 500 [-501, 7] 0 = (1, -501) ∧
    main_exit_code true = 0 ∧
    main_exit_code true ≠ 2 := by
  have h : run_loop 500 [-501, 7] 0 = (1, -501) := by
    simp [run_loop, check_risk_limits]
    norm_num
  exact ⟨h, rfl, by norm_num [main_exit_code]⟩

/-- C8 (amended): once the cumulative profit first drops below -max_daily_loss the
run loop stops at the end of that iteration — no further scan iteration runs, an
early stop happens only on such a breach, and every earlier processed prefix had
passed the risk check — but the process then shuts down normally and exits with
status 0 (there is no exit-code-2 path in the code). -/
theorem risk_halt_amended (max_daily_loss : ℚ) (profits : List ℚ) :
    (run_loop max_daily_loss profits 0).1 ≤ profits.length ∧
    (run_loop max_daily_loss profits 0).2 =
      (profits.take (run_loop max_daily_loss profits 0).1).sum ∧
    ((run_loop max_daily_loss profits 0).1 < profits.length →
      (run_loop max_daily_loss profits 0).2 < -max_daily_loss) ∧
    (∀ k, 1 ≤ k → k < (run_loop max_daily_loss profits 0).1 →
      ¬ ((profits.take k).sum < -max_daily_loss)) ∧
    (∀ risk_halted : Bool, main_exit_code risk_halted = 0) := by
  obtain ⟨h1, h2, h3, h4⟩ := run_loop_spec max_daily_loss profits 0
  rw [zero_add] at h2
  refine ⟨h1, h2, h3, ?_, fun _ => rfl⟩
  intro k hk1 hk2
  have := h4 k hk1 hk2
  rw [zero_add] at this
  exact this

/-- Witness for C8 (amended): on the stream [-100, -600, 5] with max_daily_loss
500 the loop runs exactly two iterations; the prefix after one iteration had not
breached the limit. -/
theorem risk_halt_amended_witness :
    ¬ (([(-100 : ℚ), -600, 5].take 1).sum < -500) :=
  (risk_halt_amended 500 [-100, -600, 5]).2.2.2.1 1 (Nat.le_refl 1)
    (by simp [run_loop, check_risk_limits]; norm_num)

/-- C9: the REST-built PriceUpdate's price field is bid + ask / 2 — a precedence
slip — so with bid 100 and ask 102 it reports 151 instead of the intended mid
(100 + 102) / 2 = 101, which both the streaming book-ticker path and the
PriceUpdate.mid_price property compute correctly. -/
theorem binance_rest_mid_bug :
    binance_rest_price_field 100 102 = 151 ∧
    binance_book_ticker_price_field 100 102 = 101 ∧
    price_update_mid 100 102 = 101 ∧
    binance_rest_price_field 100 102 ≠ price_update_mid 100 102 := by
  refine ⟨?_, ?_, ?_, ?_⟩
  · simp only [binance_rest_price_field]
    norm_num
  · simp only [binance_book_ticker_price_field]
    norm_num
  · simp only [price_update_mid]
    norm_num
  · simp only [binance_rest_price_field, price_update_mid]
    norm_num

end Wanchai
